import Mathlib

/-!
# Character mode controller (glide, sprint, stamina)

A shallow embedding of `Source/paperpalcpp/paperpalcppCharacter.{h,cpp}`.

The character object is a record of the fields the mode operations read or
write: the class members declared in the header, plus the inherited engine
components they reach through `GetMesh()`, `GetCapsuleComponent()` and
`GetCharacterMovement()`.  Every method becomes a function from the state
before the call to the state after it.  What a method asks the engine about
the world (the line trace of `CanGlide`, the movement mode behind
`IsFalling()` and `IsMovingOnGround()`) is passed in as a `World` value, so
the answer may differ from one call to the next.

`float` members are modelled by rationals.  The code never computes with
them: it only stores literals (`55.f`, `-125.f`, ...) and copies components,
so no rounding is involved.  `int` members are modelled by `Int`.
-/

/-- The engine vector type, with the component names of the source. -/
structure FVector where
  X : ℚ
  Y : ℚ
  Z : ℚ
deriving DecidableEq

/-- The engine rotator type.  Its three-argument constructor takes the
components in the order pitch, yaw, roll, which is the field order here, so
`FRotator(a, b, c)` of the source is `FRotator.mk a b c`. -/
structure FRotator where
  Pitch : ℚ
  Yaw : ℚ
  Roll : ℚ
deriving DecidableEq

/-- A skeletal mesh component, reduced to the visibility flag that
`SetVisibility` writes. -/
structure USkeletalMeshComponent where
  bVisible : Bool
deriving DecidableEq

/-- The collision capsule, reduced to the two sizes that `InitCapsuleSize`
and `SetCapsuleSize` write. -/
structure UCapsuleComponent where
  CapsuleRadius : ℚ
  CapsuleHalfHeight : ℚ
deriving DecidableEq

/-- The fields of the character movement component that the source writes. -/
structure UCharacterMovementComponent where
  Velocity : FVector
  GravityScale : ℚ
  AirControl : ℚ
  RotationRate : FRotator
  bOrientRotationToMovement : Bool
  bUseControllerDesiredRotation : Bool
  JumpZVelocity : ℚ
  MaxWalkSpeed : ℚ
  MinAnalogWalkSpeed : ℚ
  BrakingDecelerationWalking : ℚ
  BrakingDecelerationFalling : ℚ
deriving DecidableEq

/-- The movement modes of the engine's movement component. -/
inductive EMovementMode where
  | MOVE_None
  | MOVE_Walking
  | MOVE_NavWalking
  | MOVE_Falling
  | MOVE_Swimming
  | MOVE_Flying
  | MOVE_Custom
deriving DecidableEq

/-- What the engine answers when a method queries it: whether the downward
line trace of `CanGlide` comes back with a blocking hit, and the movement
mode the movement component is in. -/
structure World where
  bBlockingHit : Bool
  MovementMode : EMovementMode
deriving DecidableEq

/-- The character object.  The first block is the members of
`paperpalcppCharacter.h` (lines 55-68 and 96-100); a mesh pointer is an
`Option`, `none` being the null pointer.  The second block is the inherited
state reached through the engine getters; `bCrouchRequested` records the
stance last asked for through `Crouch()` (true) or `UnCrouch()` (false). -/
structure CharacterState where
  descendingRate : ℚ
  isGliding : Bool
  currentVelocity : FVector
  isSprinting : Bool
  stamina : Int
  maxStamina : Int
  walkSpeed : ℚ
  sprintSpeed : ℚ
  delta : ℚ
  PlaneMesh : Option USkeletalMeshComponent
  RollMesh : Option USkeletalMeshComponent
  Mesh : Option USkeletalMeshComponent
  CapsuleComponent : UCapsuleComponent
  CharacterMovement : UCharacterMovementComponent
  bUseControllerRotationPitch : Bool
  bUseControllerRotationYaw : Bool
  bUseControllerRotationRoll : Bool
  bCrouchRequested : Bool
deriving DecidableEq

namespace USkeletalMeshComponent

/-- The engine call `SetVisibility(b)` on a mesh component. -/
def SetVisibility (c : USkeletalMeshComponent) (b : Bool) : USkeletalMeshComponent :=
  { c with bVisible := b }

end USkeletalMeshComponent

namespace UCapsuleComponent

/-- The engine call `InitCapsuleSize(radius, halfHeight)`. -/
def InitCapsuleSize (c : UCapsuleComponent) (InRadius InHalfHeight : ℚ) : UCapsuleComponent :=
  { c with CapsuleRadius := InRadius, CapsuleHalfHeight := InHalfHeight }

/-- The engine call `SetCapsuleSize(radius, halfHeight)`. -/
def SetCapsuleSize (c : UCapsuleComponent) (InRadius InHalfHeight : ℚ) : UCapsuleComponent :=
  { c with CapsuleRadius := InRadius, CapsuleHalfHeight := InHalfHeight }

end UCapsuleComponent

namespace World

/-- The engine query `GetCharacterMovement()->IsFalling()`. -/
def IsFalling (w : World) : Bool :=
  w.MovementMode == EMovementMode.MOVE_Falling

/-- The engine query `GetCharacterMovement()->IsMovingOnGround()`. -/
def IsMovingOnGround (w : World) : Bool :=
  w.MovementMode == EMovementMode.MOVE_Walking || w.MovementMode == EMovementMode.MOVE_NavWalking

end World

/-- A presentation is on screen when its component reference is set and the
component's visibility flag is on. -/
def Shown (p : Option USkeletalMeshComponent) : Bool :=
  match p with
  | some c => c.bVisible
  | none => false

/-- Modelled from the spec: the object the engine's base class hands to the
constructor of this class, which is engine code outside the repository.  The
spec names the normal gravity scale (1.0); the primary presentation exists and
is shown; every other field is zero, false or null, as the engine allocates
objects zero-filled. -/
def ACharacter : CharacterState :=
  { descendingRate := 0
    isGliding := false
    currentVelocity := ⟨0, 0, 0⟩
    isSprinting := false
    stamina := 0
    maxStamina := 0
    walkSpeed := 0
    sprintSpeed := 0
    delta := 0
    PlaneMesh := none
    RollMesh := none
    Mesh := some ⟨true⟩
    CapsuleComponent := ⟨0, 0⟩
    CharacterMovement :=
      { Velocity := ⟨0, 0, 0⟩
        GravityScale := 1
        AirControl := 0
        RotationRate := ⟨0, 0, 0⟩
        bOrientRotationToMovement := false
        bUseControllerDesiredRotation := false
        JumpZVelocity := 0
        MaxWalkSpeed := 0
        MinAnalogWalkSpeed := 0
        BrakingDecelerationWalking := 0
        BrakingDecelerationFalling := 0 }
    bUseControllerRotationPitch := false
    bUseControllerRotationYaw := false
    bUseControllerRotationRoll := false
    bCrouchRequested := false }

namespace ApaperpalcppCharacter

set_option linter.dupNamespace false

/-- The constructor (`paperpalcppCharacter.cpp` lines 20-64) applied to the
base object `Super`: first the default member initialisers of the header
(lines 56, 58, 62, 63), then the assignments of the body that touch the
modelled fields (lines 23-41).  The camera boom, the follow camera and the
skeletal mesh asset are not part of the modelled state. -/
def ApaperpalcppCharacter (Super : CharacterState) : CharacterState :=
  let s0 : CharacterState :=
    { Super with descendingRate := 300, isGliding := false, stamina := 150, maxStamina := 150 }
  let s1 : CharacterState :=
    { s0 with CapsuleComponent := s0.CapsuleComponent.InitCapsuleSize 35 60 }
  let s2 : CharacterState :=
    { s1 with
        bUseControllerRotationPitch := false
        bUseControllerRotationYaw := false
        bUseControllerRotationRoll := false }
  let m : UCharacterMovementComponent :=
    { s2.CharacterMovement with
        bOrientRotationToMovement := true
        RotationRate := FRotator.mk 0 500 0
        JumpZVelocity := 825
        AirControl := 1
        MaxWalkSpeed := 650
        MinAnalogWalkSpeed := 20
        BrakingDecelerationWalking := 2000
        BrakingDecelerationFalling := 1500 }
  { s2 with CharacterMovement := m }

/-- `CanGlide` (lines 242-266).  The trace and the debug line do not touch the
character; the result is decided by the hit flag of the trace and by
`IsFalling()`. -/
def CanGlide (w : World) (_self : CharacterState) : Bool :=
  if w.bBlockingHit == false && w.IsFalling == true then
    true
  else
    false

/-- `EnablePlane` (lines 195-220). -/
def EnablePlane (w : World) (self : CharacterState) : CharacterState :=
  if CanGlide w self then
    let s1 : CharacterState := { self with currentVelocity := self.CharacterMovement.Velocity }
    let s2 : CharacterState := { s1 with isGliding := true }
    let s3 : CharacterState := { s2 with Mesh := s2.Mesh.map (fun c => c.SetVisibility false) }
    let s4 : CharacterState := { s3 with PlaneMesh := s3.PlaneMesh.map (fun c => c.SetVisibility true) }
    let s5 : CharacterState := { s4 with CapsuleComponent := s4.CapsuleComponent.SetCapsuleSize 55 55 }
    let m : UCharacterMovementComponent :=
      { s5.CharacterMovement with
          Velocity := FVector.mk s5.currentVelocity.X s5.currentVelocity.Y (-125)
          GravityScale := 0
          AirControl := 10
          RotationRate := FRotator.mk 0 0 175
          bUseControllerDesiredRotation := true }
    { s5 with CharacterMovement := m }
  else
    self

/-- `DisablePlane` (lines 222-240). -/
def DisablePlane (self : CharacterState) : CharacterState :=
  let s1 : CharacterState := { self with isGliding := false }
  let s2 : CharacterState := { s1 with Mesh := s1.Mesh.map (fun c => c.SetVisibility true) }
  let s3 : CharacterState := { s2 with PlaneMesh := s2.PlaneMesh.map (fun c => c.SetVisibility false) }
  let s4 : CharacterState := { s3 with CapsuleComponent := s3.CapsuleComponent.SetCapsuleSize 35 60 }
  let m : UCharacterMovementComponent :=
    { s4.CharacterMovement with
        GravityScale := 1
        AirControl := 1
        RotationRate := FRotator.mk 0 0 600 }
  { s4 with CharacterMovement := m }

/-- `TogglePlane` (lines 183-193). -/
def TogglePlane (w : World) (self : CharacterState) : CharacterState :=
  if self.isGliding == false then
    EnablePlane w self
  else
    DisablePlane self

/-- `StartSprint` (lines 268-289). -/
def StartSprint (w : World) (self : CharacterState) : CharacterState :=
  if w.IsMovingOnGround then
    let s1 : CharacterState := { self with RollMesh := self.RollMesh.map (fun c => c.SetVisibility true) }
    let s2 : CharacterState := { s1 with Mesh := s1.Mesh.map (fun c => c.SetVisibility false) }
    let s3 : CharacterState :=
      { s2 with CharacterMovement := { s2.CharacterMovement with MaxWalkSpeed := 1000 } }
    let s4 : CharacterState := { s3 with isSprinting := true }
    { s4 with bCrouchRequested := true }
  else
    self

/-- `StopSprint` (lines 291-306). -/
def StopSprint (self : CharacterState) : CharacterState :=
  let s1 : CharacterState := { self with RollMesh := self.RollMesh.map (fun c => c.SetVisibility false) }
  let s2 : CharacterState := { s1 with Mesh := s1.Mesh.map (fun c => c.SetVisibility true) }
  let s3 : CharacterState :=
    { s2 with CharacterMovement := { s2.CharacterMovement with MaxWalkSpeed := 650 } }
  let s4 : CharacterState := { s3 with isSprinting := false }
  { s4 with bCrouchRequested := false }

/-- `DrainStamina` (lines 308-316).  `maxStamina` is 150 in every state the
program builds (it is initialised in the header and never assigned), so the
subtraction stays far inside the range of `int`. -/
def DrainStamina (self : CharacterState) : CharacterState :=
  let s1 : CharacterState := { self with stamina := self.maxStamina - 1 }
  if s1.stamina == 0 then
    StopSprint s1
  else
    s1

/-- The world in which the character walks on the ground, something solid
under its feet. -/
def groundedWorld : World :=
  { bBlockingHit := true, MovementMode := EMovementMode.MOVE_Walking }

/-- The world in which the character falls with nothing under it. -/
def fallingClearWorld : World :=
  { bBlockingHit := false, MovementMode := EMovementMode.MOVE_Falling }

/-- The character as the constructor leaves it. -/
def constructed : CharacterState :=
  ApaperpalcppCharacter ACharacter

/-- A character that has lost its primary mesh reference: `GetMesh()` returns
null. -/
def withoutMesh : CharacterState :=
  { constructed with Mesh := none }

/-- A character that started to sprint on the ground: its primary mesh has
been hidden by `StartSprint`. -/
def sprinting : CharacterState :=
  StartSprint groundedWorld constructed

/-- A sprinting character whose stamina is at its floor. -/
def exhausted : CharacterState :=
  { sprinting with stamina := 0 }

/-! ## Helper facts about the engine queries -/

theorem IsMovingOnGround_false_of_IsFalling (w : World) (h : w.IsFalling = true) :
    w.IsMovingOnGround = false := by
  cases w with
  | mk hit mode => cases mode <;> simp_all [World.IsFalling, World.IsMovingOnGround]

theorem CanGlide_eq_true_iff (w : World) (s : CharacterState) :
    CanGlide w s = true ↔ w.bBlockingHit = false ∧ w.IsFalling = true := by
  cases hb : w.bBlockingHit <;> cases hf : w.IsFalling <;> simp [CanGlide, hb, hf]

/-! ## Gliding -/

/-- Claim C1: whenever the downward probe reports a blocking hit or the
movement system does not report falling, `CanGlide` is false and
`EnablePlane` returns the character exactly as it was, every field
included. -/
theorem EnablePlane_unchanged_when_cannot_glide (w : World) (s : CharacterState)
    (h : w.bBlockingHit = true ∨ w.IsFalling = false) :
    CanGlide w s = false ∧ EnablePlane w s = s := by
  have hc : CanGlide w s = false := by
    rcases h with h | h <;> simp [CanGlide, h]
  exact ⟨hc, by simp [EnablePlane, hc]⟩

theorem EnablePlane_unchanged_when_cannot_glide_witness :
    (groundedWorld.bBlockingHit = true ∨ groundedWorld.IsFalling = false) ∧
      EnablePlane groundedWorld sprinting = sprinting :=
  ⟨Or.inl rfl, (EnablePlane_unchanged_when_cannot_glide groundedWorld sprinting (Or.inl rfl)).2⟩

/-- Claim C2: with a clear probe and a falling character whose velocity is
`(vx, vy, vz)`, `EnablePlane` sets `isGliding`, zeroes the gravity scale,
resizes the capsule to radius 55 and half-height 55, saves `(vx, vy, vz)` and
leaves the movement velocity at `(vx, vy, -125)`. -/
theorem EnablePlane_effects (w : World) (s : CharacterState) (vx vy vz : ℚ)
    (hv : s.CharacterMovement.Velocity = FVector.mk vx vy vz)
    (hhit : w.bBlockingHit = false) (hfall : w.IsFalling = true) :
    (EnablePlane w s).isGliding = true ∧
      (EnablePlane w s).CharacterMovement.GravityScale = 0 ∧
      (EnablePlane w s).CapsuleComponent.CapsuleRadius = 55 ∧
      (EnablePlane w s).CapsuleComponent.CapsuleHalfHeight = 55 ∧
      (EnablePlane w s).currentVelocity = FVector.mk vx vy vz ∧
      (EnablePlane w s).CharacterMovement.Velocity = FVector.mk vx vy (-125) := by
  have hc : CanGlide w s = true := (CanGlide_eq_true_iff w s).2 ⟨hhit, hfall⟩
  simp [EnablePlane, hc, hv, UCapsuleComponent.SetCapsuleSize]

theorem EnablePlane_effects_witness :
    (EnablePlane fallingClearWorld constructed).isGliding = true ∧
      (EnablePlane fallingClearWorld constructed).CharacterMovement.GravityScale = 0 ∧
      (EnablePlane fallingClearWorld constructed).CapsuleComponent.CapsuleRadius = 55 ∧
      (EnablePlane fallingClearWorld constructed).CapsuleComponent.CapsuleHalfHeight = 55 ∧
      (EnablePlane fallingClearWorld constructed).currentVelocity = FVector.mk 0 0 0 ∧
      (EnablePlane fallingClearWorld constructed).CharacterMovement.Velocity =
        FVector.mk 0 0 (-125) :=
  EnablePlane_effects fallingClearWorld constructed 0 0 0 rfl rfl rfl

/-- Claim C3, as stated, fails: on a character without a primary mesh
reference `DisablePlane` skips the call that would show it, so no primary
presentation is on screen afterwards. -/
theorem DisablePlane_withoutMesh_not_shown :
    ¬ ((DisablePlane withoutMesh).isGliding = false ∧
        Shown (DisablePlane withoutMesh).Mesh = true ∧
        Shown (DisablePlane withoutMesh).PlaneMesh = false ∧
        (DisablePlane withoutMesh).CharacterMovement.GravityScale = 1) := by
  decide

/-- Claim C3, amended: after `DisablePlane`, in every state, `isGliding` is
false, the gravity scale is 1, no glide presentation is on screen, and the
primary presentation is on screen provided its reference is set; a null
reference stays null. -/
theorem DisablePlane_effects (s : CharacterState) :
    (DisablePlane s).isGliding = false ∧
      (DisablePlane s).CharacterMovement.GravityScale = 1 ∧
      Shown (DisablePlane s).PlaneMesh = false ∧
      (s.Mesh.isSome = true → Shown (DisablePlane s).Mesh = true) ∧
      (s.Mesh = none → (DisablePlane s).Mesh = none) ∧
      ((DisablePlane s).PlaneMesh.isSome = s.PlaneMesh.isSome) := by
  refine ⟨rfl, rfl, ?_, ?_, ?_, ?_⟩
  · cases h : s.PlaneMesh <;> simp [DisablePlane, Shown, h, USkeletalMeshComponent.SetVisibility]
  · intro hm
    cases h : s.Mesh with
    | none => simp [h] at hm
    | some c => simp [DisablePlane, Shown, h, USkeletalMeshComponent.SetVisibility]
  · intro hm
    simp [DisablePlane, hm]
  · cases h : s.PlaneMesh <;> simp [DisablePlane, h]

theorem DisablePlane_effects_witness :
    Shown (DisablePlane sprinting).Mesh = true ∧ (DisablePlane withoutMesh).Mesh = none :=
  ⟨(DisablePlane_effects sprinting).2.2.2.1 rfl, (DisablePlane_effects withoutMesh).2.2.2.2.1 rfl⟩

/-- Claim C4, as stated, fails: a character that started sprinting and then
fell off a ledge has its primary mesh hidden; two toggles leave it shown. -/
theorem TogglePlane_twice_changes_visibility :
    sprinting.isGliding = false ∧ CanGlide fallingClearWorld sprinting = true ∧
      (TogglePlane fallingClearWorld (TogglePlane fallingClearWorld sprinting)).Mesh ≠
        sprinting.Mesh := by
  decide

/-- Claim C4, amended: if `isGliding` is false, `CanGlide` holds at the first
call, and the character starts in the ground presentation (primary mesh shown
when present, plane mesh hidden when present, gravity scale 1), then two
successive calls of `TogglePlane` give back the visibility of the primary
mesh, the visibility of the plane mesh and the gravity scale it started
with. -/
theorem TogglePlane_twice_restores (w₁ w₂ : World) (s : CharacterState)
    (hg : s.isGliding = false) (hc : CanGlide w₁ s = true)
    (hmesh : ∀ c, s.Mesh = some c → c.bVisible = true)
    (hplane : ∀ c, s.PlaneMesh = some c → c.bVisible = false)
    (hgrav : s.CharacterMovement.GravityScale = 1) :
    (TogglePlane w₂ (TogglePlane w₁ s)).Mesh = s.Mesh ∧
      (TogglePlane w₂ (TogglePlane w₁ s)).PlaneMesh = s.PlaneMesh ∧
      (TogglePlane w₂ (TogglePlane w₁ s)).CharacterMovement.GravityScale =
        s.CharacterMovement.GravityScale := by
  have h1 : TogglePlane w₁ s = EnablePlane w₁ s := by simp [TogglePlane, hg]
  have h2 : (EnablePlane w₁ s).isGliding = true := by simp [EnablePlane, hc]
  have h3 : TogglePlane w₂ (EnablePlane w₁ s) = DisablePlane (EnablePlane w₁ s) := by
    simp [TogglePlane, h2]
  rw [h1, h3]
  refine ⟨?_, ?_, ?_⟩
  · cases hm : s.Mesh with
    | none => simp [DisablePlane, EnablePlane, hc, hm]
    | some c =>
      have := hmesh c hm
      cases c with
      | mk v =>
        simp at this
        simp [DisablePlane, EnablePlane, hc, hm, USkeletalMeshComponent.SetVisibility, this]
  · cases hm : s.PlaneMesh with
    | none => simp [DisablePlane, EnablePlane, hc, hm]
    | some c =>
      have := hplane c hm
      cases c with
      | mk v =>
        simp at this
        simp [DisablePlane, EnablePlane, hc, hm, USkeletalMeshComponent.SetVisibility, this]
  · simp [DisablePlane, hgrav]

theorem TogglePlane_twice_restores_witness :
    (TogglePlane groundedWorld (TogglePlane fallingClearWorld constructed)).Mesh =
        constructed.Mesh ∧
      (TogglePlane groundedWorld (TogglePlane fallingClearWorld constructed)).PlaneMesh =
        constructed.PlaneMesh ∧
      (TogglePlane groundedWorld (TogglePlane fallingClearWorld constructed)).CharacterMovement.GravityScale =
        constructed.CharacterMovement.GravityScale :=
  TogglePlane_twice_restores fallingClearWorld groundedWorld constructed rfl rfl
    (by decide) (by decide) rfl

/-! ## Sprinting and stamina -/

/-- Claim C5: `StartSprint` returns the character unchanged whenever the
movement system does not report moving on ground, in particular when it
reports falling; when it reports moving on ground, afterwards the maximum walk
speed is 1000, `isSprinting` is true and the crouched stance has been
requested. -/
theorem StartSprint_effects (w : World) (s : CharacterState) :
    (w.IsMovingOnGround = false → StartSprint w s = s) ∧
      (w.IsFalling = true → StartSprint w s = s) ∧
      (w.IsMovingOnGround = true →
        (StartSprint w s).CharacterMovement.MaxWalkSpeed = 1000 ∧
          (StartSprint w s).isSprinting = true ∧
          (StartSprint w s).bCrouchRequested = true) := by
  refine ⟨?_, ?_, ?_⟩
  · intro h
    simp [StartSprint, h]
  · intro h
    simp [StartSprint, IsMovingOnGround_false_of_IsFalling w h]
  · intro h
    simp [StartSprint, h]

theorem StartSprint_effects_witness :
    StartSprint fallingClearWorld constructed = constructed ∧
      (StartSprint groundedWorld constructed).CharacterMovement.MaxWalkSpeed = 1000 ∧
      (StartSprint groundedWorld constructed).isSprinting = true ∧
      (StartSprint groundedWorld constructed).bCrouchRequested = true :=
  ⟨(StartSprint_effects fallingClearWorld constructed).2.1 rfl,
    (StartSprint_effects groundedWorld constructed).2.2 rfl⟩

/-- Claim C6: after `StopSprint`, in every state, the maximum walk speed is
650 and `isSprinting` is false; in particular a `StartSprint` on the ground,
which turns sprinting on, followed by `StopSprint` ends with `isSprinting`
false and maximum walk speed 650. -/
theorem StopSprint_effects (w : World) (s : CharacterState) :
    (StopSprint s).CharacterMovement.MaxWalkSpeed = 650 ∧
      (StopSprint s).isSprinting = false ∧
      (w.IsMovingOnGround = true →
        (StartSprint w s).isSprinting = true ∧
          (StopSprint (StartSprint w s)).isSprinting = false ∧
          (StopSprint (StartSprint w s)).CharacterMovement.MaxWalkSpeed = 650) := by
  refine ⟨rfl, rfl, ?_⟩
  intro h
  exact ⟨by simp [StartSprint, h], rfl, rfl⟩

theorem StopSprint_effects_witness :
    (StartSprint groundedWorld constructed).isSprinting = true ∧
      (StopSprint (StartSprint groundedWorld constructed)).isSprinting = false ∧
      (StopSprint (StartSprint groundedWorld constructed)).CharacterMovement.MaxWalkSpeed = 650 :=
  (StopSprint_effects groundedWorld constructed).2.2 rfl

/-- Claim C7 fails on the code: on a sprinting character with stamina 0 and
`maxStamina` 150, `DrainStamina` stores 149 into `stamina`, the test
`stamina == 0` is false and `StopSprint` is not run, so `isSprinting` stays
true and the maximum walk speed stays 1000. -/
theorem DrainStamina_exhausted_keeps_sprinting :
    exhausted.stamina = 0 ∧ exhausted.maxStamina = 150 ∧
      exhausted.isSprinting = true ∧
      exhausted.CharacterMovement.MaxWalkSpeed = 1000 ∧
      (DrainStamina exhausted).stamina = 149 ∧
      (DrainStamina exhausted).isSprinting = true ∧
      (DrainStamina exhausted).CharacterMovement.MaxWalkSpeed = 1000 := by
  decide

/-! ## Ground defaults and rotation rate -/

/-- Claim C8, as stated, fails: on the freshly constructed character
`DisablePlane` leaves the rotation rate at pitch 0, yaw 0, roll 600, which is
not the constructor's pitch 0, yaw 500, roll 0. -/
theorem DisablePlane_rotation_rate_not_restored :
    ¬ ((DisablePlane constructed).CapsuleComponent = constructed.CapsuleComponent ∧
        (DisablePlane constructed).CharacterMovement.GravityScale =
          constructed.CharacterMovement.GravityScale ∧
        (DisablePlane constructed).CharacterMovement.AirControl =
          constructed.CharacterMovement.AirControl ∧
        (DisablePlane constructed).CharacterMovement.RotationRate =
          constructed.CharacterMovement.RotationRate) := by
  decide

/-- Claim C8, amended: after `DisablePlane`, in every state, the capsule size
(radius 35, half-height 60), the gravity scale (1) and the air control (1) are
the values of the freshly constructed character.  The rotation rate is not
part of the statement. -/
theorem DisablePlane_restores_ground_defaults (s : CharacterState) :
    (DisablePlane s).CapsuleComponent = constructed.CapsuleComponent ∧
      (DisablePlane s).CapsuleComponent = UCapsuleComponent.mk 35 60 ∧
      (DisablePlane s).CharacterMovement.GravityScale =
        constructed.CharacterMovement.GravityScale ∧
      (DisablePlane s).CharacterMovement.GravityScale = 1 ∧
      (DisablePlane s).CharacterMovement.AirControl =
        constructed.CharacterMovement.AirControl ∧
      (DisablePlane s).CharacterMovement.AirControl = 1 := by
  refine ⟨?_, ?_, ?_, rfl, ?_, rfl⟩ <;> rfl

/-- Claim C9, as stated, fails: from the constructor's configuration, with
`CanGlide` true, the yaw component of the rotation rate is 500 before
`EnablePlane` and 0 after it, so it is not strictly greater. -/
theorem EnablePlane_yaw_rate_not_increased :
    CanGlide fallingClearWorld constructed = true ∧
      constructed.CharacterMovement.RotationRate = FRotator.mk 0 500 0 ∧
      ¬ (constructed.CharacterMovement.RotationRate.Yaw <
          (EnablePlane fallingClearWorld constructed).CharacterMovement.RotationRate.Yaw) := by
  decide

/-- Claim C9, amended: a successful `EnablePlane` does not increase the yaw
rotation rate.  For every state whose rotation rate is the constructor's
`FRotator(0, 500, 0)`, with `CanGlide` true, the yaw component of the
rotation rate after `EnablePlane` is not greater than the yaw component
before the call. -/
theorem EnablePlane_yaw_rate_le (w : World) (s : CharacterState)
    (hc : CanGlide w s = true)
    (h0 : s.CharacterMovement.RotationRate = FRotator.mk 0 500 0) :
    (EnablePlane w s).CharacterMovement.RotationRate.Yaw ≤
      s.CharacterMovement.RotationRate.Yaw := by
  have h : (EnablePlane w s).CharacterMovement.RotationRate.Yaw = 0 := by
    simp [EnablePlane, hc]
  rw [h, h0]
  norm_num

theorem EnablePlane_yaw_rate_le_witness :
    CanGlide fallingClearWorld sprinting = true ∧
      sprinting.CharacterMovement.RotationRate = FRotator.mk 0 500 0 ∧
      (EnablePlane fallingClearWorld sprinting).CharacterMovement.RotationRate.Yaw ≤
        sprinting.CharacterMovement.RotationRate.Yaw :=
  ⟨rfl, by decide, EnablePlane_yaw_rate_le fallingClearWorld sprinting rfl (by decide)⟩

/-! ## The two mode flags -/

/-- Claim C10: the two mode flags can be true together.  From the freshly
constructed character, where both are false, `StartSprint` while the movement
system reports walking followed by `EnablePlane` while it reports falling over
a clear probe ends with `isGliding` and `isSprinting` both true; the same holds
from any starting state, because `EnablePlane` never changes `isSprinting` and
`StartSprint` never changes `isGliding`. -/
theorem isGliding_and_isSprinting_together :
    constructed.isGliding = false ∧ constructed.isSprinting = false ∧
      (EnablePlane fallingClearWorld (StartSprint groundedWorld constructed)).isGliding = true ∧
      (EnablePlane fallingClearWorld (StartSprint groundedWorld constructed)).isSprinting = true ∧
      (∀ s : CharacterState,
        (EnablePlane fallingClearWorld (StartSprint groundedWorld s)).isGliding = true ∧
          (EnablePlane fallingClearWorld (StartSprint groundedWorld s)).isSprinting = true) ∧
      (∀ (w : World) (s : CharacterState), (EnablePlane w s).isSprinting = s.isSprinting) ∧
      (∀ (w : World) (s : CharacterState), (StartSprint w s).isGliding = s.isGliding) := by
  refine ⟨rfl, rfl, by decide, by decide, ?_, ?_, ?_⟩
  · intro s
    have hc : ∀ t, CanGlide fallingClearWorld t = true := fun _ => rfl
    have hg : groundedWorld.IsMovingOnGround = true := rfl
    simp [EnablePlane, hc, StartSprint, hg]
  · intro w s
    cases hc : CanGlide w s <;> simp [EnablePlane, hc]
  · intro w s
    cases hg : w.IsMovingOnGround <;> simp [StartSprint, hg]

end ApaperpalcppCharacter
